import Mathlib

/-!
Shallow embedding of `src/main.py` of awoo-co/catchat-desktop: a small
Tkinter launcher with two buttons that open the Catchat web UI either in
an embedded pywebview window or in the system browser.

Modelling choices:
* The runtime environment is a pair of booleans (`Env`): whether the
  `tkinter` import succeeds (lines 15-20; `tk` and `messagebox` are bound
  in the same `try` block, so both are `None` exactly when it is false)
  and whether the `webview` import succeeds (lines 22-27).
* Side effects are reified as an effect vocabulary (`BaseEffect`,
  `Effect`); functions return `Except PyError (List Effect)`, where
  `.error` models an uncaught Python exception (e.g. calling a method on
  a module bound to `None`).
* A spawned thread is the effect `Effect.threadStart daemon body` whose
  `body` is the trace the thread will perform when scheduled (the body of
  `_run`, lines 53-56).
* Tk widgets are modelled by `Widget`/`Window`; `Frame` containers
  (lines 73, 79) carry no text and no command and are pure layout, so
  they are not modelled as widgets.
-/

namespace Catchat

/-- Python exceptions that the embedded fragments could raise. -/
inductive PyError where
  /-- Attribute access / call on a module variable bound to `None`. -/
  | noneAttribute
  deriving DecidableEq, Repr

/-- Atomic side effects performed directly on the calling thread or
inside a spawned thread body. -/
inductive BaseEffect where
  /-- A `webbrowser.open(url, new)` call. -/
  | browserOpen (url : String) (new : Nat)
  /-- A `print(msg)` to standard output. -/
  | printStdout (msg : String)
  /-- A `print(msg, file=sys.stderr)` to standard error. -/
  | printStderr (msg : String)
  /-- A `messagebox.showerror(title, msg)` dialog. -/
  | showErrorDialog (title : String) (msg : String)
  /-- A `webview.create_window(title, url)` call (a rendering window). -/
  | webviewCreateWindow (title : String) (url : String)
  /-- The blocking `webview.start()` call. -/
  | webviewStart
  /-- The blocking `root.mainloop()` call. -/
  | mainloop
  /-- A `sys.exit(code)` call (never emitted by this program). -/
  | exitProcess (code : Nat)
  deriving DecidableEq, Repr

/-- Equality of `Except` values is decidable when it is on both sides. -/
instance exceptDecEq {ε α : Type} [DecidableEq ε] [DecidableEq α] :
    DecidableEq (Except ε α) := fun a b =>
  match a, b with
  | .ok x, .ok y =>
      if h : x = y then .isTrue (by rw [h]) else .isFalse (by simp [h])
  | .error x, .error y =>
      if h : x = y then .isTrue (by rw [h]) else .isFalse (by simp [h])
  | .ok _, .error _ => .isFalse (by simp)
  | .error _, .ok _ => .isFalse (by simp)

/-- An effect of the program: either a base effect performed on the
current thread, or the start of a new thread whose body, once scheduled,
yields the given result. -/
inductive Effect where
  | base (e : BaseEffect)
  | threadStart (daemon : Bool) (body : Except PyError (List BaseEffect))
  deriving DecidableEq, Repr

/-- The runtime environment of one invocation. -/
structure Env where
  /-- Does `import tkinter` (and with it `from tkinter import messagebox`)
  succeed?  Lines 15-20. -/
  tkAvailable : Bool
  /-- Does `import webview` (pywebview) succeed?  Lines 22-27. -/
  webviewAvailable : Bool
  deriving DecidableEq, Repr

/-- The module-level flag `HAS_WEBVIEW` (lines 22-27): true exactly when
the pywebview import probe succeeded. -/
def HAS_WEBVIEW (env : Env) : Bool := env.webviewAvailable

/-- The fixed target URL (line 29). -/
def URL : String := "https://awoo-co.github.io/catchat/"

/-- The console notice of the no-tkinter fallback (line 65). -/
def tkNotice : String := "Tkinter is not available in this environment. Opening in browser..."

/-- The dialog body shown when pywebview is missing (lines 45-48). -/
def missingMsgDialog : String := "pywebview is not installed.\nInstall with: pip install pywebview"

/-- The stderr line printed when pywebview is missing and `messagebox`
is `None` (line 50). -/
def missingMsgConsole : String := "pywebview is not installed. Install with: pip install pywebview"

/-- The gray note text added to the launcher window when pywebview is
missing (line 89). -/
def hintText : String := "Note: For embedded view install 'pywebview' (pip install pywebview)"

/-- Does `pat` occur at the head of `l`? -/
def charsLeading : List Char → List Char → Bool
  | [], _ => true
  | _ :: _, [] => false
  | a :: as, b :: bs => a == b && charsLeading as bs

/-- Does `pat` occur anywhere in `l`? -/
def charsHave (pat : List Char) : List Char → Bool
  | [] => charsLeading pat []
  | l@(_ :: rest) => charsLeading pat l || charsHave pat rest

/-- Does the string `s` contain `pat` as a substring? -/
def strHas (s pat : String) : Bool := charsHave pat.toList s.toList

/-- A `webbrowser.open(url, new=...)` call; `webbrowser` is part of the
standard library, so the call itself cannot fail here. -/
def webbrowser_open (url : String) (new : Nat) : Except PyError (List Effect) :=
  .ok [.base (.browserOpen url new)]

/-- Lines 32-34: `open_in_browser` opens the Catchat URL in the system
default browser via `webbrowser.open(URL, new=2)`. -/
def open_in_browser : Except PyError (List Effect) :=
  webbrowser_open URL 2

/-- A `messagebox.showerror(title, msg)` call: raises if `messagebox` is
bound to `None`. -/
def messagebox_showerror (mbAvailable : Bool) (title msg : String) :
    Except PyError (List BaseEffect) :=
  if mbAvailable then .ok [.showErrorDialog title msg] else .error .noneAttribute

/-- A `webview.create_window(title, url)` call: raises if `webview` is
bound to `None`. -/
def webview_create_window (wvAvailable : Bool) (title url : String) :
    Except PyError (List BaseEffect) :=
  if wvAvailable then .ok [.webviewCreateWindow title url] else .error .noneAttribute

/-- A `webview.start()` call: raises if `webview` is bound to `None`. -/
def webview_start (wvAvailable : Bool) : Except PyError (List BaseEffect) :=
  if wvAvailable then .ok [.webviewStart] else .error .noneAttribute

/-- Lines 53-56: the body of the nested `_run` function — create the
webview window, then run the blocking `webview.start()`. -/
def wvRun (wvAvailable : Bool) : Except PyError (List BaseEffect) := do
  let e1 ← webview_create_window wvAvailable "Catchat" URL
  let e2 ← webview_start wvAvailable
  pure (e1 ++ e2)

/-- Lines 37-59: `open_in_webview`.  If `HAS_WEBVIEW` is false, show an
error dialog when `messagebox` is available and otherwise print to
stderr, then return.  Otherwise start a daemon thread running `_run`. -/
def open_in_webview (hasWebview mbAvailable : Bool) : Except PyError (List Effect) :=
  if !hasWebview then
    if mbAvailable then
      (messagebox_showerror mbAvailable "Missing dependency" missingMsgDialog).map
        (List.map Effect.base)
    else
      .ok [.base (.printStderr missingMsgConsole)]
  else
    .ok [.threadStart true (wvRun hasWebview)]

/-- A launcher-window button command (line 82 resp. line 85). -/
inductive ButtonCommand where
  | openInWebviewCmd
  | openInBrowserCmd
  deriving DecidableEq, Repr

/-- A Tk widget of the launcher window that carries text or a command. -/
inductive Widget where
  | label (text : String) (fg : Option String)
  | button (text : String) (width : Nat) (command : ButtonCommand)
  deriving DecidableEq, Repr

/-- The launcher window. -/
structure Window where
  title : String
  geometry : String
  widgets : List Widget
  deriving DecidableEq, Repr

/-- Lines 69-90: the launcher window built by `main` when tkinter is
available.  The trailing gray note label is added exactly when
`HAS_WEBVIEW` is false (lines 88-90). -/
def buildLauncherWindow (hasWebview : Bool) : Window :=
  { title := "Catchat"
  , geometry := "420x160"
  , widgets :=
      [ Widget.label "Open Catchat web UI" none
      , Widget.button "Open in App (embedded)" 22 ButtonCommand.openInWebviewCmd
      , Widget.button "Open in Browser" 22 ButtonCommand.openInBrowserCmd ]
      ++ (if !hasWebview then [ Widget.label hintText (some "gray") ]
          else []) }

/-- The result of `main`: the effects it performs and the launcher
window it constructs, if any. -/
structure MainResult where
  effects : List Effect
  window : Option Window
  deriving DecidableEq, Repr

/-- Lines 62-92: `main`.  If tkinter is unavailable, print the notice,
open the browser and return; otherwise build the launcher window and
block in `root.mainloop()`. -/
def main (env : Env) : Except PyError MainResult :=
  if !env.tkAvailable then
    (open_in_browser).map fun es =>
      ⟨Effect.base (.printStdout tkNotice) :: es, none⟩
  else
    .ok ⟨[Effect.base .mainloop], some (buildLauncherWindow (HAS_WEBVIEW env))⟩

/-- A user interaction with the launcher window: clicking one of the two
buttons. -/
inductive UserAction where
  | clickEmbedded
  | clickBrowser
  deriving DecidableEq, Repr

/-- The mutable module-level state visible to the button callbacks: the
`HAS_WEBVIEW` flag and the `messagebox` binding. -/
structure ProgState where
  hasWebview : Bool
  mbAvailable : Bool
  deriving DecidableEq, Repr

/-- The state established at startup by the two import probes
(lines 15-27). -/
def initState (env : Env) : ProgState :=
  ⟨HAS_WEBVIEW env, env.tkAvailable⟩

/-- Dispatching one button click: runs the corresponding callback and
returns the (unchanged) state together with the callback trace. -/
def stepAction (s : ProgState) : UserAction → ProgState × Except PyError (List Effect)
  | .clickEmbedded => (s, open_in_webview s.hasWebview s.mbAvailable)
  | .clickBrowser => (s, open_in_browser)

/-- One button click in environment `env`. -/
def dispatch (env : Env) (a : UserAction) : Except PyError (List Effect) :=
  (stepAction (initState env) a).2

/-- The effects of a sequence of button clicks handled one at a time by
the event loop. -/
def runActions (env : Env) : List UserAction → Except PyError (List Effect)
  | [] => .ok []
  | a :: rest => do
      let e ← dispatch env a
      let es ← runActions env rest
      pure (e ++ es)

/-- A whole execution: when tkinter is available the event loop handles
the clicks; otherwise the fallback path of `main` runs and no click can
occur. -/
def programRun (env : Env) (acts : List UserAction) : Except PyError (List Effect) :=
  if env.tkAvailable then runActions env acts
  else (main env).map MainResult.effects

/-- Number of `browserOpen url new` effects in a trace (thread bodies
included; no thread body in this program opens a browser). -/
def browserOpenOf (url : String) : Effect → Nat
  | .base (.browserOpen u _) => if u = url then 1 else 0
  | _ => 0

/-- Number of system-browser-open calls with the given URL in a trace. -/
def browserOpenCount (url : String) (tr : List Effect) : Nat :=
  (tr.map (browserOpenOf url)).sum

/-- Number of rendering windows (`webview.create_window` calls) a base
effect accounts for. -/
def baseRender : BaseEffect → Nat
  | .webviewCreateWindow _ _ => 1
  | _ => 0

/-- Number of rendering windows an effect accounts for, looking inside
spawned thread bodies. -/
def effectRender : Effect → Nat
  | .base b => baseRender b
  | .threadStart _ (.ok body) => (body.map baseRender).sum
  | .threadStart _ (.error _) => 0

/-- Number of rendering windows started by a trace. -/
def renderCount (tr : List Effect) : Nat :=
  (tr.map effectRender).sum

/-- Number of threads started by a trace. -/
def threadCount (tr : List Effect) : Nat :=
  (tr.map fun e => match e with
    | .threadStart _ _ => 1
    | _ => 0).sum

/-- Is a base effect a blocking call (`webview.start()` or
`root.mainloop()`)? -/
def baseBlocking : BaseEffect → Bool
  | .webviewStart => true
  | .mainloop => true
  | _ => false

/-- Number of blocking calls a trace performs on the calling thread
itself (thread bodies excluded: those block only the spawned thread). -/
def callerBlockingCount (tr : List Effect) : Nat :=
  (tr.map fun e => match e with
    | .base b => if baseBlocking b then 1 else 0
    | .threadStart _ _ => 0).sum

/-- Number of `sys.exit` calls in a trace, thread bodies included. -/
def exitCount (tr : List Effect) : Nat :=
  (tr.map fun e => match e with
    | .base (.exitProcess _) => 1
    | .threadStart _ (.ok body) =>
        (body.map fun b => match b with
          | .exitProcess _ => 1
          | _ => 0).sum
    | _ => 0).sum

/-- Diagnostic notices of a base effect: an error dialog or a diagnostic
print count, both carrying their message text. -/
def baseDiagnostic : BaseEffect → List String
  | .printStderr m => [m]
  | .showErrorDialog _ m => [m]
  | _ => []

/-- All diagnostic notices of a trace, thread bodies included. -/
def diagnostics (tr : List Effect) : List String :=
  (tr.map fun e => match e with
    | .base b => baseDiagnostic b
    | .threadStart _ (.ok body) => (body.map baseDiagnostic).flatten
    | .threadStart _ (.error _) => []).flatten

/-- Console-stream messages of a base effect (stdout and stderr). -/
def baseConsole : BaseEffect → List String
  | .printStdout m => [m]
  | .printStderr m => [m]
  | _ => []

/-- All console-stream (stdout or stderr) messages of a trace, thread
bodies included. -/
def consoleMsgs (tr : List Effect) : List String :=
  (tr.map fun e => match e with
    | .base b => baseConsole b
    | .threadStart _ (.ok body) => (body.map baseConsole).flatten
    | .threadStart _ (.error _) => []).flatten

/-- All dialog (messagebox) messages of a trace, thread bodies
included. -/
def dialogMsgs (tr : List Effect) : List String :=
  (tr.map fun e => match e with
    | .base (.showErrorDialog _ m) => [m]
    | _ => []).flatten

/-- Is a widget a button (an action of the launcher window)? -/
def isButton : Widget → Bool
  | .button _ _ _ => true
  | _ => false

/-- Number of actions (buttons) of a window. -/
def buttonCount (w : Window) : Nat :=
  (w.widgets.filter isButton).length

/-- The gray hint label added when pywebview is missing (line 89). -/
def hintLabel : Widget := Widget.label hintText (some "gray")

/-- Is a widget a gray hint label? -/
def isHint : Widget → Bool
  | .label _ (some fg) => fg = "gray"
  | _ => false

/-- Is every thread started by the trace a daemon thread? -/
def allThreadsDaemon (tr : List Effect) : Bool :=
  tr.all fun e => match e with
    | .threadStart d _ => d
    | _ => true

/-- Number of gray hint labels of a window. -/
def hintCount (w : Window) : Nat :=
  (w.widgets.filter isHint).length

/-! ## Shared helper lemmas -/

/-- Console messages distribute over trace concatenation. -/
theorem consoleMsgs_append (a b : List Effect) :
    consoleMsgs (a ++ b) = consoleMsgs a ++ consoleMsgs b := by
  simp [consoleMsgs]

/-- Dialog messages distribute over trace concatenation. -/
theorem dialogMsgs_append (a b : List Effect) :
    dialogMsgs (a ++ b) = dialogMsgs a ++ dialogMsgs b := by
  simp [dialogMsgs]

/-- Diagnostics distribute over trace concatenation. -/
theorem diagnostics_append (a b : List Effect) :
    diagnostics (a ++ b) = diagnostics a ++ diagnostics b := by
  simp [diagnostics]

/-- In an environment whose tkinter probe succeeded, a single button
click never writes to the console stream, and it opens a dialog or
produces a diagnostic only when the pywebview probe failed. -/
theorem dispatch_stream_facts (wv : Bool) (a : UserAction) :
    ∃ e, dispatch ⟨true, wv⟩ a = .ok e ∧ consoleMsgs e = [] ∧
      (wv = true → dialogMsgs e = [] ∧ diagnostics e = []) := by
  cases a <;> cases wv <;> exact ⟨_, rfl, by decide, by decide⟩

/-- In an environment whose tkinter probe succeeded, a whole event-loop
run never writes to the console stream, and it produces dialogs or
diagnostics only when the pywebview probe failed. -/
theorem runActions_stream_facts (wv : Bool) :
    ∀ (acts : List UserAction) (tr : List Effect),
      runActions ⟨true, wv⟩ acts = .ok tr →
      consoleMsgs tr = [] ∧
      (wv = true → dialogMsgs tr = [] ∧ diagnostics tr = []) := by
  intro acts
  induction acts with
  | nil =>
    intro tr h
    have : tr = [] := by
      simpa [runActions] using h.symm
    subst this
    exact ⟨rfl, fun _ => ⟨rfl, rfl⟩⟩
  | cons a rest ih =>
    intro tr h
    obtain ⟨e, he, hce, hde⟩ := dispatch_stream_facts wv a
    rw [runActions, he] at h
    simp only [bind, Except.bind] at h
    cases hrest : runActions ⟨true, wv⟩ rest with
    | error err => rw [hrest] at h; cases h
    | ok es =>
      rw [hrest] at h
      simp only [pure, Except.pure, Except.ok.injEq] at h
      subst h
      obtain ⟨hces, hdes⟩ := ih es hrest
      refine ⟨?_, ?_⟩
      · rw [consoleMsgs_append, hce, hces]; rfl
      · intro hwv
        obtain ⟨hd1, hg1⟩ := hde hwv
        obtain ⟨hd2, hg2⟩ := hdes hwv
        rw [dialogMsgs_append, diagnostics_append, hd1, hd2, hg1, hg2]
        exact ⟨rfl, rfl⟩

/-! ## Claim theorems -/

/-- C1: when the windowing capability (tkinter) is absent, `main`
constructs no window, prints exactly the one-line console notice,
performs exactly one system-browser-open call with the fixed URL
`https://awoo-co.github.io/catchat/`, and returns normally (no raised
exception, no `sys.exit`). -/
theorem no_tk_fallback_single_browser_open (wv : Bool) :
    ∃ r, main ⟨false, wv⟩ = Except.ok r ∧
      r.window = none ∧
      r.effects = [Effect.base (.printStdout tkNotice),
                   Effect.base (.browserOpen URL 2)] ∧
      browserOpenCount URL r.effects = 1 ∧
      consoleMsgs r.effects = [tkNotice] ∧
      exitCount r.effects = 0 :=
  ⟨_, rfl, rfl, rfl, by decide, rfl, rfl⟩

/-- C2: when the embedded capability is available, the embedded action
starts exactly one thread whose body creates exactly one rendering
window (then runs the blocking `webview.start()` there), and the action
itself performs no blocking call on the calling thread, so the call
returns at once and the launcher event loop is not blocked. -/
theorem embedded_available_nonblocking_handoff (mb : Bool) :
    ∃ body, open_in_webview true mb = .ok [Effect.threadStart true (.ok body)] ∧
      body = [BaseEffect.webviewCreateWindow "Catchat" URL, BaseEffect.webviewStart] ∧
      threadCount [Effect.threadStart true (.ok body)] = 1 ∧
      renderCount [Effect.threadStart true (.ok body)] = 1 ∧
      callerBlockingCount [Effect.threadStart true (.ok body)] = 0 :=
  ⟨_, rfl, rfl, rfl, by decide, rfl⟩

/-- C3: when the embedded capability is unavailable, the embedded action
starts no rendering window and no thread, produces exactly one
diagnostic notice — which states that pywebview is not installed and
names the install remedy — and returns normally without raising or
exiting the process. -/
theorem embedded_missing_single_diagnostic (mb : Bool) :
    ∃ tr, open_in_webview false mb = Except.ok tr ∧
      diagnostics tr = [if mb then missingMsgDialog else missingMsgConsole] ∧
      strHas (if mb then missingMsgDialog else missingMsgConsole)
        "pywebview is not installed" = true ∧
      strHas (if mb then missingMsgDialog else missingMsgConsole)
        "pip install pywebview" = true ∧
      renderCount tr = 0 ∧ threadCount tr = 0 ∧ exitCount tr = 0 := by
  cases mb <;> exact ⟨_, rfl, rfl, by decide, by decide, rfl, rfl, rfl⟩

/-- C4: the browser action performs exactly one system-browser-open
call with the fixed URL, in every environment (in particular for both
values of the `HAS_WEBVIEW` flag). -/
theorem browser_action_single_open (env : Env) :
    ∃ tr, dispatch env .clickBrowser = Except.ok tr ∧
      tr = [Effect.base (.browserOpen URL 2)] ∧
      browserOpenCount URL tr = 1 :=
  ⟨_, rfl, rfl, by decide⟩

/-- C5: when the windowing capability is present, `main` constructs the
launcher window with exactly two actions (buttons) and then its only
effect is the blocking `root.mainloop()` event-loop call, in which the
process stays until the window is closed. -/
theorem tk_present_two_action_window (wv : Bool) :
    ∃ r, main ⟨true, wv⟩ = Except.ok r ∧
      r.window = some (buildLauncherWindow wv) ∧
      buttonCount (buildLauncherWindow wv) = 2 ∧
      r.effects = [Effect.base .mainloop] ∧
      callerBlockingCount r.effects = 1 := by
  cases wv <;> exact ⟨_, rfl, rfl, by decide, rfl, rfl⟩

/-- C6 counterexample: with tkinter present, pywebview absent and the
user clicking the embedded action, the execution produces its diagnostic
as a messagebox dialog and writes nothing at all to the standard
error/console stream — contradicting the claim that in the
missing-embedded-capability case the diagnostic output goes to the
standard error/console stream. -/
theorem missing_webview_diagnostic_not_on_console :
    ∃ tr, programRun ⟨true, false⟩ [UserAction.clickEmbedded] = Except.ok tr ∧
      diagnostics tr = [missingMsgDialog] ∧
      dialogMsgs tr = [missingMsgDialog] ∧
      consoleMsgs tr = [] :=
  ⟨_, rfl, by decide, by decide, by decide⟩

/-- C6 (amended): console/stderr diagnostic text is produced only on the
no-windowing-capability fallback path, dialogs and diagnostics only in
the missing-embedded-capability case; in the fallback the notice goes to
the console, while the missing-embedded diagnostic goes to a dialog when
the dialog facility is available and to stderr only when it is absent. -/
theorem console_diagnostics_confined (env : Env) (acts : List UserAction)
    (tr : List Effect) (h : programRun env acts = Except.ok tr) :
    (consoleMsgs tr ≠ [] → env.tkAvailable = false) ∧
    (dialogMsgs tr ≠ [] → HAS_WEBVIEW env = false ∧ env.tkAvailable = true) ∧
    (diagnostics tr ≠ [] → env.tkAvailable = false ∨ HAS_WEBVIEW env = false) ∧
    open_in_webview false true =
      Except.ok [Effect.base (.showErrorDialog "Missing dependency" missingMsgDialog)] ∧
    open_in_webview false false =
      Except.ok [Effect.base (.printStderr missingMsgConsole)] := by
  obtain ⟨tk, wv⟩ := env
  cases tk with
  | false =>
    have htr : tr = [Effect.base (.printStdout tkNotice),
                     Effect.base (.browserOpen URL 2)] := by
      simpa [programRun, main, open_in_browser, webbrowser_open, Except.map] using h.symm
    subst htr
    exact ⟨fun _ => rfl, fun hne => absurd rfl hne, fun hne => absurd rfl hne, rfl, rfl⟩
  | true =>
    obtain ⟨hc, hd⟩ :=
      runActions_stream_facts wv acts tr (by simpa [programRun] using h)
    refine ⟨fun hne => absurd hc hne, ?_, ?_, rfl, rfl⟩
    · cases wv with
      | false => exact fun _ => ⟨rfl, rfl⟩
      | true => exact fun hne => absurd (hd rfl).1 hne
    · cases wv with
      | false => exact fun _ => Or.inr rfl
      | true => exact fun hne => absurd (hd rfl).2 hne

/-- C6 (amended) witness: the amended statement instantiated at the
empty run in the environment with both capabilities present. -/
theorem console_diagnostics_confined_witness :
    (consoleMsgs ([] : List Effect) ≠ [] → (Env.mk true true).tkAvailable = false) ∧
    (dialogMsgs ([] : List Effect) ≠ [] →
      HAS_WEBVIEW (Env.mk true true) = false ∧ (Env.mk true true).tkAvailable = true) ∧
    (diagnostics ([] : List Effect) ≠ [] →
      (Env.mk true true).tkAvailable = false ∨ HAS_WEBVIEW (Env.mk true true) = false) ∧
    open_in_webview false true =
      Except.ok [Effect.base (.showErrorDialog "Missing dependency" missingMsgDialog)] ∧
    open_in_webview false false =
      Except.ok [Effect.base (.printStderr missingMsgConsole)] :=
  console_diagnostics_confined ⟨true, true⟩ [] [] rfl

/-- C7: the `HAS_WEBVIEW` flag is fixed once by the startup import
probe: no button dispatch ever changes the module state holding it, the
embedded action branches on exactly that value, and the startup hint
label is present in the launcher window exactly when that same value is
false. -/
theorem has_webview_probed_once_immutable (env : Env) (s : ProgState) (a : UserAction) :
    (stepAction s a).1 = s ∧
    (initState env).hasWebview = HAS_WEBVIEW env ∧
    dispatch env .clickEmbedded = open_in_webview (HAS_WEBVIEW env) env.tkAvailable ∧
    hintCount (buildLauncherWindow (HAS_WEBVIEW env)) =
      (if HAS_WEBVIEW env then 0 else 1) := by
  obtain ⟨tk, wv⟩ := env
  cases a <;> cases wv <;> exact ⟨rfl, rfl, rfl, rfl⟩

/-- C8: every thread that the embedded action starts — in any capability
configuration — is a daemon thread, so an open embedded view never keeps
the process alive after the launcher window closes. -/
theorem embedded_thread_always_daemon (hasWv mb : Bool) (tr : List Effect)
    (h : open_in_webview hasWv mb = Except.ok tr) :
    allThreadsDaemon tr = true := by
  cases hasWv <;> cases mb <;> (rw [← Except.ok.inj h]; rfl)

/-- C8 witness: the daemon property instantiated at the available
configuration. -/
theorem embedded_thread_always_daemon_witness :
    allThreadsDaemon [Effect.threadStart true (wvRun true)] = true :=
  embedded_thread_always_daemon true true [Effect.threadStart true (wvRun true)] rfl

/-- C9: the embedded action returns normally (never raises) in every
capability configuration and never exits the process; when both
pywebview and the dialog facility are absent it prints the
missing-dependency diagnostic to stderr — the same text as the dialog
message, with the line break replaced by a space. -/
theorem embedded_action_never_raises :
    (∀ hasWv mb : Bool, ∃ tr, open_in_webview hasWv mb = Except.ok tr ∧ exitCount tr = 0) ∧
    open_in_webview false false =
      Except.ok [Effect.base (.printStderr missingMsgConsole)] ∧
    missingMsgConsole.toList =
      missingMsgDialog.toList.map (fun c => if c = '\n' then ' ' else c) := by
  refine ⟨fun hasWv mb => ?_, rfl, by decide⟩
  cases hasWv <;> cases mb <;> exact ⟨_, rfl, by decide⟩

/-- C10: when tkinter is present the launcher window built at startup
contains, exactly when pywebview is absent, one persistent gray hint
label whose text names the install remedy; when pywebview is present no
such label exists. -/
theorem missing_webview_hint_label (wv : Bool) :
    ∃ r, main ⟨true, wv⟩ = Except.ok r ∧
      r.window = some (buildLauncherWindow wv) ∧
      hintCount (buildLauncherWindow false) = 1 ∧
      hintLabel ∈ (buildLauncherWindow false).widgets ∧
      strHas hintText "pywebview" = true ∧
      strHas hintText "pip install pywebview" = true ∧
      hintCount (buildLauncherWindow true) = 0 := by
  cases wv <;>
    exact ⟨_, rfl, rfl, by decide, by decide, by decide, by decide, by decide⟩

end Catchat
